import Mathlib

/-!
# Verification of the Remote-MCP HTTP bridge

Shallow embedding of the two adapters of the Remote-MCP repository:

* the HTTP Receiver (`HTTPAdapter` in the server package), which terminates
  HTTP POST requests carrying JSON-RPC 2.0 envelopes, validates them and
  dispatches to a router; and
* the Stdio Forwarder (`HTTPMCPClient` in `packages/client/src/http-client.ts`),
  which forwards every inbound stream-framed call to a remote HTTP JSON-RPC
  endpoint.

JavaScript values produced by `JSON.parse` are modelled by the inductive
type `Json`; the JavaScript `undefined` value (which `JSON.parse` never
produces but property access can) is modelled as `Option.none` at use sites.
External collaborators (the router, the platform `fetch`, the platform
`JSON.parse`) are parameters of the embedded functions.
-/

set_option autoImplicit false

/-- A JavaScript value as produced by `JSON.parse`: `null`, booleans,
numbers (modelled as integers; every numeric literal in the adapters is
integral), strings, arrays and objects. -/
inductive Json where
  | null
  | bool (b : Bool)
  | num (n : Int)
  | str (s : String)
  | arr (elems : List Json)
  | obj (fields : List (String × Json))

namespace Json

/-- First-match lookup of a field in a JavaScript object's entry list
(objects built by `JSON.parse` never carry duplicate keys). -/
def lookupField : List (String × Json) → String → Option Json
  | [], _ => none
  | (k, v) :: rest, key => if k = key then some v else lookupField rest key

/-- JavaScript property access `x.key` on a value that is not `null`:
a field of an object, `undefined` (`none`) for a missing field or for a
primitive receiver. Access on `null` throws and is handled at call sites. -/
def field : Json → String → Option Json
  | obj fields, key => lookupField fields key
  | _, _ => none

/-- JavaScript truthiness of a possibly-`undefined` value: `undefined`,
`null`, `false`, `0` and `""` are falsy, everything else is truthy. -/
def truthy : Option Json → Bool
  | none => false
  | some null => false
  | some (bool b) => b
  | some (num n) => n != 0
  | some (str s) => s != ""
  | some (arr _) => true
  | some (obj _) => true

mutual

/-- JavaScript string coercion `String(x)` as used by template literals. -/
def toStr : Json → String
  | null => "null"
  | bool true => "true"
  | bool false => "false"
  | num n => toString n
  | str s => s
  | arr xs => arrToStr xs
  | obj _ => "[object Object]"

/-- `Array.prototype.toString`: the comma join of the elements, with
`null` elements rendered as the empty string. -/
def arrToStr : List Json → String
  | [] => ""
  | [null] => ""
  | [x] => toStr x
  | null :: rest => "," ++ arrToStr rest
  | x :: rest => toStr x ++ "," ++ arrToStr rest

end

/-- JavaScript string coercion of a possibly-`undefined` value. -/
def optToStr : Option Json → String
  | none => "undefined"
  | some v => toStr v

end Json

/-! ## Exceptions

JavaScript exceptions that the adapters raise or catch: `thrown msg` is an
`Error` constructed by the adapters themselves with message `msg`;
`typeError` is the `TypeError` raised by property access on `null` or
`undefined`; `badJson` is the `SyntaxError` raised when `response.json()`
cannot parse the remote body. -/

/-- JavaScript exception raised inside the adapters. -/
inductive JsExn where
  | typeError
  | badJson
  | thrown (msg : String)

/-- Engine-specific message of a `TypeError` (its exact text is chosen by
the JavaScript engine; no adapter behaviour depends on it). -/
def typeErrorMessage : String := "TypeError"

/-- Engine-specific message of a `SyntaxError` from `response.json()`. -/
def badJsonMessage : String := "SyntaxError"

/-- The `.message` of a JavaScript exception, as read by the adapters'
`catch` blocks (`error instanceof Error ? error.message : ...`); every
exception in this model is an `Error`. -/
def errMessage : JsExn → String
  | JsExn.thrown msg => msg
  | JsExn.typeError => typeErrorMessage
  | JsExn.badJson => badJsonMessage

/-! ## HTTP Receiver (`HTTPAdapter`)

From the server package's HTTP adapter source. The Node `ServerResponse`
is modelled by `ResState`; `handle` returns the boolean result (or the
escaping exception) together with the final response state. The platform
`JSON.parse` of the buffered body is an external collaborator, so `handle`
receives its outcome as the `parsed` argument. -/

/-- Adapter configuration after the constructor ran: `options.path ||
'/mcp/http'` and `options.cors ?? true`. -/
structure HTTPAdapterOptions where
  path : String
  cors : Bool

/-- The `HTTPAdapter` constructor's defaulting: `||` replaces any falsy
path (absent or the empty string), `??` replaces only an absent flag. -/
def mkAdapterOptions (pathArg : Option String) (corsArg : Option Bool) :
    HTTPAdapterOptions :=
  { path := match pathArg with
      | some p => if p = "" then "/mcp/http" else p
      | none => "/mcp/http"
    cors := corsArg.getD true }

/-- Observable state of a Node `ServerResponse`: the assigned status code,
the headers set so far, whether `end` was called, and the JSON value whose
serialization was passed to `end` (if any). -/
structure ResState where
  statusCode : Option Nat
  headers : List (String × String)
  ended : Bool
  body : Option Json

/-- A fresh `ServerResponse`: nothing assigned, nothing sent. -/
def emptyRes : ResState := ⟨none, [], false, none⟩

/-- `res.setHeader(name, value)`: replace the header in place when the
name is already present, append it otherwise. -/
def insertHeader : List (String × String) → String → String → List (String × String)
  | [], name, value => [(name, value)]
  | (k, v) :: rest, name, value =>
    if k = name then (name, value) :: rest else (k, v) :: insertHeader rest name value

/-- `res.setHeader` on the response state. -/
def setHeader (res : ResState) (name value : String) : ResState :=
  { res with headers := insertHeader res.headers name value }

/-- `setCORSHeaders`: when CORS is enabled set the three permissive
headers, otherwise do nothing. -/
def setCORSHeaders (opts : HTTPAdapterOptions) (res : ResState) : ResState :=
  if opts.cors then
    setHeader (setHeader (setHeader res "Access-Control-Allow-Origin" "*")
      "Access-Control-Allow-Methods" "POST, OPTIONS")
      "Access-Control-Allow-Headers" "Content-Type"
  else res

/-- `sendJSON`: assign the status code, set `Content-Type:
application/json` and end the response with the serialized value. -/
def sendJSON (res : ResState) (statusCode : Nat) (data : Json) : ResState :=
  { setHeader { res with statusCode := some statusCode } "Content-Type" "application/json"
      with ended := true, body := some data }

/-- The JSON-RPC error envelope built by `sendError`. `JSON.stringify`
omits an object member whose value is `undefined`, so an absent `data`
argument produces no `data` member. -/
def errorEnvelope (id : Json) (code : Int) (message : String) (data : Option Json) : Json :=
  Json.obj [("jsonrpc", Json.str "2.0"), ("id", id),
    ("error", Json.obj ([("code", Json.num code), ("message", Json.str message)] ++
      (match data with | some d => [("data", d)] | none => [])))]

/-- `sendError`: a JSON-RPC error envelope always at HTTP status 200. -/
def sendError (res : ResState) (id : Json) (code : Int) (message : String)
    (data : Option Json) : ResState :=
  sendJSON res 200 (errorEnvelope id code message data)

/-- The external router collaborator (`MCPRouter`, outside this core): one
operation per protocol method (the `initialize` operation is named
`initializeOp` here because `initialize` is a Lean keyword); each may fail with an `Error` whose message
is the `String` on the left. Arguments that may be JavaScript `undefined`
are `Option Json`. -/
structure MCPRouter where
  initializeOp : Option Json → Except String Json
  listTools : Except String Json
  callTool : Option Json → Option Json → Except String Json
  listResources : Except String Json
  readResource : Option Json → Except String Json
  subscribeToResource : Option Json → Except String Json
  unsubscribeFromResource : Option Json → Except String Json
  listPrompts : Except String Json
  getPrompt : Option Json → Option Json → Except String Json

/-- A router failure propagates as a thrown `Error` carrying its message. -/
def liftRouter (r : Except String Json) : Except JsExn Json :=
  r.mapError JsExn.thrown

/-- Property access `x.key` where `x` itself may be `undefined`: access on
`undefined` or `null` throws a `TypeError`, anything else yields the field
(or `undefined`). Embeds the unchecked parameter casts followed by field
access in `handleMethod`. -/
def fieldOf : Option Json → String → Except JsExn (Option Json)
  | none, _ => Except.error JsExn.typeError
  | some Json.null, _ => Except.error JsExn.typeError
  | some v, key => Except.ok (v.field key)

/-- `HTTPAdapter.handleMethod`: the switch over the nine protocol methods.
The `method` argument is the raw value of the request's `method` member
(`handle` only calls it on truthy values); a non-string method matches no
case and reaches the default branch, whose template literal coerces it
with `String(...)`. -/
def handleMethod (router : MCPRouter) (method : Option Json) (params : Option Json) :
    Except JsExn Json :=
  match method with
  | some (Json.str s) =>
    if s = "initialize" then liftRouter (router.initializeOp params)
    else if s = "tools/list" then do
      let tools ← liftRouter router.listTools
      pure (Json.obj [("tools", tools)])
    else if s = "tools/call" then do
      let name ← fieldOf params "name"
      let args ← fieldOf params "arguments"
      liftRouter (router.callTool name args)
    else if s = "resources/list" then do
      let resources ← liftRouter router.listResources
      pure (Json.obj [("resources", resources)])
    else if s = "resources/read" then do
      let uri ← fieldOf params "uri"
      let contents ← liftRouter (router.readResource uri)
      pure (Json.obj [("contents", contents)])
    else if s = "resources/subscribe" then do
      let uri ← fieldOf params "uri"
      let _ ← liftRouter (router.subscribeToResource uri)
      pure (Json.obj [])
    else if s = "resources/unsubscribe" then do
      let uri ← fieldOf params "uri"
      let _ ← liftRouter (router.unsubscribeFromResource uri)
      pure (Json.obj [])
    else if s = "prompts/list" then do
      let prompts ← liftRouter router.listPrompts
      pure (Json.obj [("prompts", prompts)])
    else if s = "prompts/get" then do
      let name ← fieldOf params "name"
      let args ← fieldOf params "arguments"
      let messages ← liftRouter (router.getPrompt name args)
      pure (Json.obj [("messages", messages)])
    else Except.error (JsExn.thrown ("Method not found: " ++ s))
  | other => Except.error (JsExn.thrown ("Method not found: " ++ Json.optToStr other))

/-- The strict comparison `x !== '2.0'`, negated: true exactly when the
value is the string `"2.0"`. -/
def isJsonrpc20 : Option Json → Bool
  | some (Json.str s) => s = "2.0"
  | _ => false

/-- `jsonrpcRequest.id ?? null`: the request's `id` member with `null` and
`undefined` both collapsed to `null`. -/
def idOrNull (req : Json) : Json :=
  match req.field "id" with
  | none => Json.null
  | some Json.null => Json.null
  | some v => v

/-- `HTTPAdapter.handle`. Arguments: the adapter configuration, the router,
the request's URL and HTTP method, and the outcome of the platform
`JSON.parse` on the buffered body. Result: the returned boolean — or the
exception escaping the async function — paired with the final response
state. The only statement outside a `try` that can throw is the validation
`jsonrpcRequest.jsonrpc !== '2.0'`, a `TypeError` when the parsed body is
`null`. -/
def handle (opts : HTTPAdapterOptions) (router : MCPRouter) (url method : String)
    (parsed : Except Unit Json) : Except JsExn Bool × ResState :=
  if url ≠ opts.path then (Except.ok false, emptyRes)
  else
    let res := setCORSHeaders opts emptyRes
    if method = "OPTIONS" then
      (Except.ok true, { res with statusCode := some 204, ended := true })
    else if method ≠ "POST" then
      (Except.ok true,
        sendError res Json.null (-32600) "Invalid Request: Only POST is supported" none)
    else
      match parsed with
      | Except.error _ =>
        (Except.ok true, sendError res Json.null (-32700) "Parse error" none)
      | Except.ok req =>
        match req with
        | Json.null => (Except.error JsExn.typeError, res)
        | _ =>
          if !(isJsonrpc20 (req.field "jsonrpc")) || !(Json.truthy (req.field "method")) then
            (Except.ok true, sendError res (idOrNull req) (-32600) "Invalid Request" none)
          else
            match handleMethod router (req.field "method") (req.field "params") with
            | Except.ok result =>
              (Except.ok true, sendJSON res 200 (Json.obj
                [("jsonrpc", Json.str "2.0"), ("id", idOrNull req), ("result", result)]))
            | Except.error e =>
              (Except.ok true, sendError res (idOrNull req) (-32603) "Internal error"
                (some (Json.str (errMessage e))))

/-! ## Stdio Forwarder (`HTTPMCPClient`, `packages/client/src/http-client.ts`)

The stream-framed server object and the platform `fetch` are external
collaborators. A handler invocation is modelled as a function of the
current request-identifier counter, the inbound parameters and the remote
HTTP outcome; it returns the handler's result (or escaping exception), the
new counter, the HTTP requests issued and the invocations of the `onError`
callback. -/

/-- Forwarder configuration: the remote URL, the static headers (an absent
`headers` option behaves as the empty list under object spread), and
whether an `onError` callback is configured (the constructor installs a
default one, so it is absent only if the caller explicitly overrides it
with `undefined`). -/
structure HTTPMCPClientOptions where
  remoteUrl : String
  headers : List (String × String)
  hasOnError : Bool

/-- The header object of the outgoing `fetch` call, built by the object
literal spread — `Content-Type: application/json` first, then every
configured header in order, later entries overriding earlier ones in
place. -/
def requestHeaders (configured : List (String × String)) : List (String × String) :=
  configured.foldl (fun acc p => insertHeader acc p.1 p.2)
    [("Content-Type", "application/json")]

/-- One HTTP request as handed to `fetch`: URL, HTTP method, header object
and the JSON value whose serialization is the body. -/
structure FetchRequest where
  url : String
  method : String
  headers : List (String × String)
  body : Json

/-- The remote HTTP outcome for one forwarded call: the response status
and the result of `response.json()` on its body. -/
structure RemoteResponse where
  status : Nat
  jsonBody : Except Unit Json

/-- `Response.ok` of the fetch API: status in the range 200–299. -/
def fetchOk (status : Nat) : Bool := 200 ≤ status && status ≤ 299

/-- The JSON-RPC request object built by `sendRequest`; `JSON.stringify`
omits the `params` member when the parameter value is `undefined`. -/
def rpcRequestBody (id : Nat) (method : String) (params : Option Json) : Json :=
  Json.obj ([("jsonrpc", Json.str "2.0"), ("id", Json.num id),
    ("method", Json.str method)] ++
    (match params with | some p => [("params", p)] | none => []))

/-- Result of `sendRequest`: its return value or escaping exception, the
request-identifier counter afterwards, and the `fetch` calls issued. -/
structure SendResult where
  outcome : Except JsExn (Option Json)
  newCounter : Nat
  requests : List FetchRequest

/-- `HTTPMCPClient.sendRequest`: pre-increment the identifier counter,
issue one POST to the configured remote URL, fail on a non-success
status, parse the body, fail if it carries a truthy `error` member
(embedding the remote code and message in the `Error`), otherwise return
the body's `result` member. Property access on a `null` body throws a
`TypeError`. -/
def sendRequest (opts : HTTPMCPClientOptions) (counter : Nat) (method : String)
    (params : Option Json) (remote : RemoteResponse) : SendResult :=
  let id := counter + 1
  let req : FetchRequest :=
    ⟨opts.remoteUrl, "POST", requestHeaders opts.headers, rpcRequestBody id method params⟩
  if !(fetchOk remote.status) then
    ⟨Except.error (JsExn.thrown ("HTTP error! status: " ++ toString remote.status)),
      id, [req]⟩
  else
    match remote.jsonBody with
    | Except.error _ => ⟨Except.error JsExn.badJson, id, [req]⟩
    | Except.ok Json.null => ⟨Except.error JsExn.typeError, id, [req]⟩
    | Except.ok body =>
      if Json.truthy (body.field "error") then
        ⟨Except.error (JsExn.thrown ("JSON-RPC error " ++
            Json.optToStr ((body.field "error").bind (fun e => e.field "code")) ++ ": " ++
            Json.optToStr ((body.field "error").bind (fun e => e.field "message")))),
          id, [req]⟩
      else ⟨Except.ok (body.field "result"), id, [req]⟩

/-- Result of one handler invocation: the value returned to the
stream-framed binding (or the propagated exception), the counter
afterwards, the `fetch` calls issued, and the `(method, message)`
arguments of each `onError` invocation. -/
structure HandlerResult where
  outcome : Except JsExn (Option Json)
  newCounter : Nat
  requests : List FetchRequest
  errorCalls : List (String × String)

/-- The shared shape of all nine registered handlers: forward over
`sendRequest` with the hard-coded wire method name; on failure invoke the
optional `onError` callback with the inbound request's method
(`localMethod`, which the SDK schemas fix to the same name) and rethrow. -/
def forwardHandler (opts : HTTPMCPClientOptions) (wireMethod localMethod : String)
    (counter : Nat) (params : Option Json) (remote : RemoteResponse) : HandlerResult :=
  let s := sendRequest opts counter wireMethod params remote
  match s.outcome with
  | Except.ok r => ⟨Except.ok r, s.newCounter, s.requests, []⟩
  | Except.error e =>
    ⟨Except.error e, s.newCounter, s.requests,
      if opts.hasOnError then [(localMethod, errMessage e)] else []⟩

/-- `HTTPMCPClient.setupHandlers`: the nine registrations, one per request
schema, each keyed by the schema's method name and forwarding to the same
wire method name. -/
def setupHandlers (opts : HTTPMCPClientOptions) :
    List (String × (Nat → Option Json → RemoteResponse → HandlerResult)) :=
  [("initialize", forwardHandler opts "initialize" "initialize"),
   ("tools/list", forwardHandler opts "tools/list" "tools/list"),
   ("tools/call", forwardHandler opts "tools/call" "tools/call"),
   ("resources/list", forwardHandler opts "resources/list" "resources/list"),
   ("resources/read", forwardHandler opts "resources/read" "resources/read"),
   ("resources/subscribe", forwardHandler opts "resources/subscribe" "resources/subscribe"),
   ("resources/unsubscribe", forwardHandler opts "resources/unsubscribe" "resources/unsubscribe"),
   ("prompts/list", forwardHandler opts "prompts/list" "prompts/list"),
   ("prompts/get", forwardHandler opts "prompts/get" "prompts/get")]

/-- A sequence of forwarded calls against the same forwarder instance:
thread the identifier counter through consecutive `sendRequest`
invocations and collect every issued HTTP request. -/
def runCalls (opts : HTTPMCPClientOptions) :
    Nat → List (String × Option Json × RemoteResponse) → List FetchRequest
  | _, [] => []
  | counter, (m, p, r) :: rest =>
    let s := sendRequest opts counter m p r
    s.requests ++ runCalls opts s.newCounter rest

/-- The wire identifier carried by an issued request's body. -/
def sentId (r : FetchRequest) : Option Json := r.body.field "id"

/-! ## Derived response builders and lookup helpers -/

/-- Value of a header in a header object. -/
def lookupHeader : List (String × String) → String → Option String
  | [], _ => none
  | (k, v) :: rest, key => if k = key then some v else lookupHeader rest key

/-- The Receiver's success response: status 200 and the success envelope
carrying the request's id and the dispatch result. -/
def successResponse (opts : HTTPAdapterOptions) (id result : Json) : ResState :=
  sendJSON (setCORSHeaders opts emptyRes) 200
    (Json.obj [("jsonrpc", Json.str "2.0"), ("id", id), ("result", result)])

/-! ## Concrete instances used by witnesses and counterexamples -/

/-- A total demonstration router whose operations all succeed. -/
def demoRouter : MCPRouter where
  initializeOp := fun _ => Except.ok (Json.str "init-result")
  listTools := Except.ok (Json.arr [Json.obj [("name", Json.str "calculator")]])
  callTool := fun _ _ => Except.ok (Json.str "call-result")
  listResources := Except.ok (Json.arr [])
  readResource := fun _ => Except.ok (Json.arr [Json.str "content"])
  subscribeToResource := fun _ => Except.ok Json.null
  unsubscribeFromResource := fun _ => Except.ok Json.null
  listPrompts := Except.ok (Json.arr [])
  getPrompt := fun _ _ => Except.ok (Json.arr [Json.str "message"])

/-- A router whose every operation fails with the `Error` message `boom`. -/
def failRouter : MCPRouter where
  initializeOp := fun _ => Except.error "boom"
  listTools := Except.error "boom"
  callTool := fun _ _ => Except.error "boom"
  listResources := Except.error "boom"
  readResource := fun _ => Except.error "boom"
  subscribeToResource := fun _ => Except.error "boom"
  unsubscribeFromResource := fun _ => Except.error "boom"
  listPrompts := Except.error "boom"
  getPrompt := fun _ _ => Except.error "boom"

/-- The adapter configuration with every option left to its default. -/
def demoOpts : HTTPAdapterOptions := mkAdapterOptions none none

/-- A forwarder configuration with no static headers. -/
def demoFwdOpts : HTTPMCPClientOptions :=
  ⟨"http://localhost:9512/mcp/http", [], true⟩

/-- A forwarder configuration whose static headers map `Content-Type` to
another value. -/
def overrideFwdOpts : HTTPMCPClientOptions :=
  ⟨"http://localhost:9512/mcp/http", [("Content-Type", "text/plain")], true⟩

/-- A successful remote outcome carrying `result: "X"`. -/
def remoteOkX : RemoteResponse :=
  ⟨200, Except.ok (Json.obj [("jsonrpc", Json.str "2.0"), ("id", Json.num 1),
    ("result", Json.str "X")])⟩

/-- A status-200 remote outcome carrying a JSON-RPC error object. -/
def remoteErr : RemoteResponse :=
  ⟨200, Except.ok (Json.obj [("jsonrpc", Json.str "2.0"), ("id", Json.num 1),
    ("error", Json.obj [("code", Json.num (-32601)), ("message", Json.str "nope")])])⟩

/-- A JSON-RPC request body for `tools/list` with id 1. -/
def demoToolsListReq : Json :=
  Json.obj [("jsonrpc", Json.str "2.0"), ("id", Json.num 1),
    ("method", Json.str "tools/list"), ("params", Json.obj [])]

/-! ## Helper lemmas -/

/-- Branch skeleton of `handle` for a POST to the configured path whose
body parsed to an object. -/
theorem handle_post_obj_eq (opts : HTTPAdapterOptions) (router : MCPRouter)
    (fs : List (String × Json)) :
    handle opts router opts.path "POST" (Except.ok (Json.obj fs)) =
      (let req := Json.obj fs
       let res := setCORSHeaders opts emptyRes
       if !(isJsonrpc20 (req.field "jsonrpc")) || !(Json.truthy (req.field "method")) then
         (Except.ok true, sendError res (idOrNull req) (-32600) "Invalid Request" none)
       else
         match handleMethod router (req.field "method") (req.field "params") with
         | Except.ok result =>
           (Except.ok true, sendJSON res 200 (Json.obj
             [("jsonrpc", Json.str "2.0"), ("id", idOrNull req), ("result", result)]))
         | Except.error e =>
           (Except.ok true, sendError res (idOrNull req) (-32603) "Internal error"
             (some (Json.str (errMessage e))))) := by
  simp [handle]

theorem isJsonrpc20_iff (x : Option Json) :
    isJsonrpc20 x = true ↔ x = some (Json.str "2.0") := by
  cases x with
  | none => simp [isJsonrpc20]
  | some v => cases v <;> simp [isJsonrpc20]

theorem idOrNull_present {req v : Json} (h : req.field "id" = some v)
    (hv : v ≠ Json.null) : idOrNull req = v := by
  unfold idOrNull
  rw [h]
  cases v <;> simp_all

theorem idOrNull_absent {req : Json} (h : req.field "id" = none) :
    idOrNull req = Json.null := by
  unfold idOrNull
  rw [h]

/-- Every branch of `sendRequest` issues the same single POST. -/
theorem sendRequest_requests (opts : HTTPMCPClientOptions) (counter : Nat)
    (method : String) (params : Option Json) (remote : RemoteResponse) :
    (sendRequest opts counter method params remote).requests =
      [⟨opts.remoteUrl, "POST", requestHeaders opts.headers,
        rpcRequestBody (counter + 1) method params⟩] := by
  unfold sendRequest
  split
  · rfl
  · split <;> first | rfl | (split <;> rfl)

/-- Every branch of `sendRequest` leaves the counter at its pre-increment
successor. -/
theorem sendRequest_newCounter (opts : HTTPMCPClientOptions) (counter : Nat)
    (method : String) (params : Option Json) (remote : RemoteResponse) :
    (sendRequest opts counter method params remote).newCounter = counter + 1 := by
  unfold sendRequest
  split
  · rfl
  · split <;> first | rfl | (split <;> rfl)

theorem insertHeader_lookup_ne (hs : List (String × String)) (k v key : String)
    (h : k ≠ key) : lookupHeader (insertHeader hs k v) key = lookupHeader hs key := by
  induction hs with
  | nil => simp [insertHeader, lookupHeader, h]
  | cons p rest ih =>
    by_cases hk : p.1 = k
    · simp [insertHeader, hk, lookupHeader, h]
    · by_cases hp : p.1 = key
      · simp [insertHeader, hk, lookupHeader, hp, Ne.symm h]
      · simp [insertHeader, hk, lookupHeader, hp, ih]

/-- When no configured header is named `Content-Type`, the merged header
object still maps `Content-Type` to `application/json`. -/
theorem requestHeaders_content_type (hs : List (String × String))
    (h : ∀ p ∈ hs, p.1 ≠ "Content-Type") :
    lookupHeader (requestHeaders hs) "Content-Type" = some "application/json" := by
  suffices H : ∀ acc : List (String × String),
      lookupHeader acc "Content-Type" = some "application/json" →
      lookupHeader (hs.foldl (fun acc p => insertHeader acc p.1 p.2) acc) "Content-Type" =
        some "application/json" by
    exact H _ rfl
  induction hs with
  | nil => intro acc hacc; simpa using hacc
  | cons p rest ih =>
    intro acc hacc
    simp only [List.foldl_cons]
    refine ih (fun q hq => h q (List.mem_cons_of_mem _ hq)) _ ?_
    rw [insertHeader_lookup_ne _ _ _ _ (h p (List.mem_cons_self _ _))]
    exact hacc

/-- `forwardHandler` on a non-success HTTP status: the `Error` describing
the status is rethrown after the optional callback fires. -/
theorem forwardHandler_http_error (opts : HTTPMCPClientOptions) (wire localM : String)
    (counter : Nat) (params : Option Json) (status : Nat) (jb : Except Unit Json)
    (h : fetchOk status = false) :
    forwardHandler opts wire localM counter params ⟨status, jb⟩ =
      ⟨Except.error (JsExn.thrown ("HTTP error! status: " ++ toString status)),
        counter + 1,
        [⟨opts.remoteUrl, "POST", requestHeaders opts.headers,
          rpcRequestBody (counter + 1) wire params⟩],
        if opts.hasOnError then
          [(localM, "HTTP error! status: " ++ toString status)] else []⟩ := by
  simp [forwardHandler, sendRequest, h, errMessage]

/-- `forwardHandler` on a status-ok response whose body carries a JSON-RPC
error object: the `Error` embedding the remote code and message is
rethrown after the optional callback fires. -/
theorem forwardHandler_rpc_error (opts : HTTPMCPClientOptions) (wire localM : String)
    (counter : Nat) (params : Option Json) (status : Nat) (bodyFs : List (String × Json))
    (c : Int) (emsg : String) (hok : fetchOk status = true)
    (herr : Json.field (Json.obj bodyFs) "error" =
      some (Json.obj [("code", Json.num c), ("message", Json.str emsg)])) :
    forwardHandler opts wire localM counter params ⟨status, Except.ok (Json.obj bodyFs)⟩ =
      ⟨Except.error (JsExn.thrown ("JSON-RPC error " ++ toString c ++ ": " ++ emsg)),
        counter + 1,
        [⟨opts.remoteUrl, "POST", requestHeaders opts.headers,
          rpcRequestBody (counter + 1) wire params⟩],
        if opts.hasOnError then
          [(localM, "JSON-RPC error " ++ toString c ++ ": " ++ emsg)] else []⟩ := by
  simp only [forwardHandler, sendRequest]
  rw [herr]
  simp [hok, Json.truthy, Json.field, Json.lookupField, Json.optToStr, Json.toStr, errMessage]

/-- `forwardHandler` on a status-ok response without an `error` member:
the body's `result` member is returned and the callback stays silent. -/
theorem forwardHandler_success (opts : HTTPMCPClientOptions) (wire localM : String)
    (counter : Nat) (params : Option Json) (status : Nat) (bodyFs : List (String × Json))
    (X : Json) (hok : fetchOk status = true)
    (herr : Json.field (Json.obj bodyFs) "error" = none)
    (hres : Json.field (Json.obj bodyFs) "result" = some X) :
    forwardHandler opts wire localM counter params ⟨status, Except.ok (Json.obj bodyFs)⟩ =
      ⟨Except.ok (some X), counter + 1,
        [⟨opts.remoteUrl, "POST", requestHeaders opts.headers,
          rpcRequestBody (counter + 1) wire params⟩], []⟩ := by
  simp only [forwardHandler, sendRequest]
  rw [herr, hres]
  simp [hok, Json.truthy]

/-- The identifier each issued request carries, threaded from any starting
counter: the k-th call of the sequence carries `counter + k`. -/
theorem runCalls_map_sentId (opts : HTTPMCPClientOptions) (counter : Nat)
    (calls : List (String × Option Json × RemoteResponse)) :
    (runCalls opts counter calls).map sentId =
      (List.range' (counter + 1) calls.length).map (fun n : Nat => some (Json.num n)) := by
  induction calls generalizing counter with
  | nil => simp [runCalls]
  | cons c rest ih =>
    obtain ⟨m, p, r⟩ := c
    show (let s := sendRequest opts counter m p r
      s.requests ++ runCalls opts s.newCounter rest).map sentId = _
    rw [show (let s := sendRequest opts counter m p r
        s.requests ++ runCalls opts s.newCounter rest) =
        (sendRequest opts counter m p r).requests ++
          runCalls opts (sendRequest opts counter m p r).newCounter rest from rfl,
      sendRequest_requests, sendRequest_newCounter, List.length_cons,
      List.range'_succ _ _ 1]
    simp only [List.map_append, List.map_cons, List.map_nil, ih]
    simp [sentId, rpcRequestBody, Json.field, Json.lookupField]

/-! ## Claim theorems -/

/-- C1, counterexample: the claim says configured static headers never
override `Content-Type`, but the object spread in `sendRequest` puts the
configured headers after the default, so a configured `Content-Type:
text/plain` wins: the single outgoing request carries `Content-Type:
text/plain`, not `application/json`. -/
theorem sendRequest_content_type_overridden :
    (sendRequest overrideFwdOpts 0 "tools/list" none remoteOkX).requests.map
        (fun r => lookupHeader r.headers "Content-Type") =
      [some "text/plain"] := by
  rw [sendRequest_requests]
  rfl

/-- C1, amended: every call of `sendRequest` issues exactly one HTTP POST
to the configured remote URL whose headers are `Content-Type:
application/json` merged with the configured static headers, configured
entries overriding the default on key collision; whenever no configured
header is named `Content-Type` (exact key), the outgoing `Content-Type`
equals `application/json`. -/
theorem sendRequest_single_post (opts : HTTPMCPClientOptions) (counter : Nat)
    (method : String) (params : Option Json) (remote : RemoteResponse) :
    (sendRequest opts counter method params remote).requests =
      [⟨opts.remoteUrl, "POST", requestHeaders opts.headers,
        rpcRequestBody (counter + 1) method params⟩] ∧
    ((∀ p ∈ opts.headers, p.1 ≠ "Content-Type") →
      lookupHeader (requestHeaders opts.headers) "Content-Type" =
        some "application/json") :=
  ⟨sendRequest_requests opts counter method params remote,
   fun h => requestHeaders_content_type opts.headers h⟩

/-- Witness for the amended C1 at a concrete configuration without a
`Content-Type` entry. -/
theorem sendRequest_single_post_witness :
    (sendRequest demoFwdOpts 0 "tools/list" none remoteOkX).requests =
      [⟨demoFwdOpts.remoteUrl, "POST", requestHeaders demoFwdOpts.headers,
        rpcRequestBody 1 "tools/list" none⟩] ∧
    lookupHeader (requestHeaders demoFwdOpts.headers) "Content-Type" =
      some "application/json" :=
  ⟨(sendRequest_single_post demoFwdOpts 0 "tools/list" none remoteOkX).1,
   (sendRequest_single_post demoFwdOpts 0 "tools/list" none remoteOkX).2 (by decide)⟩

/-- C3: a POST to the configured path whose body is not parseable as JSON
is answered — for every router, which is therefore never consulted — with
HTTP status 200 and the error envelope `id: null`, code `-32700`, message
"Parse error", and `handle` returns `true`. -/
theorem handle_parse_error_resp (opts : HTTPAdapterOptions) (router : MCPRouter) :
    handle opts router opts.path "POST" (Except.error ()) =
      (Except.ok true,
        sendError (setCORSHeaders opts emptyRes) Json.null (-32700) "Parse error" none) ∧
    (sendError (setCORSHeaders opts emptyRes) Json.null (-32700) "Parse error" none).statusCode =
      some 200 ∧
    (sendError (setCORSHeaders opts emptyRes) Json.null (-32700) "Parse error" none).body =
      some (Json.obj [("jsonrpc", Json.str "2.0"), ("id", Json.null),
        ("error", Json.obj [("code", Json.num (-32700)),
          ("message", Json.str "Parse error")])]) :=
  ⟨by simp [handle], rfl, rfl⟩

/-- C6: a request whose URL differs from the configured path makes
`handle` return `false` with the response completely untouched: no status
code, no headers (CORS ones included), not ended, no body. -/
theorem handle_path_mismatch (opts : HTTPAdapterOptions) (router : MCPRouter)
    (url method : String) (parsed : Except Unit Json) (h : url ≠ opts.path) :
    handle opts router url method parsed = (Except.ok false, emptyRes) ∧
    emptyRes.statusCode = none ∧ emptyRes.headers = [] ∧
    emptyRes.ended = false ∧ emptyRes.body = none :=
  ⟨by simp [handle, h], rfl, rfl, rfl, rfl⟩

/-- Witness for C6 at the default path and a mismatching URL. -/
theorem handle_path_mismatch_witness :
    handle demoOpts demoRouter "/other" "POST" (Except.error ()) =
      (Except.ok false, emptyRes) :=
  (handle_path_mismatch demoOpts demoRouter "/other" "POST" (Except.error ())
    (by decide)).1

/-- C10: the five-character body "null" is well-formed JSON (the platform
`JSON.parse` yields the value `null`), yet `handle` on a matched POST
neither sends any response nor returns a boolean: the validation's
property access on the parsed `null` raises a `TypeError` that escapes
`handle`, leaving the response without status code or body and never
ended. Stated at the default configuration. -/
theorem handle_null_body_escapes :
    handle demoOpts demoRouter "/mcp/http" "POST" (Except.ok Json.null) =
      (Except.error JsExn.typeError, setCORSHeaders demoOpts emptyRes) ∧
    (setCORSHeaders demoOpts emptyRes).ended = false ∧
    (setCORSHeaders demoOpts emptyRes).statusCode = none ∧
    (setCORSHeaders demoOpts emptyRes).body = none := by
  refine ⟨?_, rfl, rfl, rfl⟩
  have hp : "/mcp/http" = demoOpts.path := rfl
  rw [hp]
  simp [handle]

/-- C9: starting from the initial counter 0, the n-th `sendRequest` of a
forwarder instance places the wire identifier n in its outgoing request —
`map sentId` equals `[1, 2, ..., length]` — and identifiers are strictly
increasing along the sequence: every request's identifier exceeds that of
every earlier request. -/
theorem requestId_monotonic (opts : HTTPMCPClientOptions)
    (calls : List (String × Option Json × RemoteResponse)) :
    (runCalls opts 0 calls).map sentId =
      (List.range' 1 calls.length).map (fun n : Nat => some (Json.num n)) ∧
    List.Pairwise (fun a b => ∀ i j : Int,
        a = some (Json.num i) → b = some (Json.num j) → i < j)
      ((runCalls opts 0 calls).map sentId) := by
  refine ⟨runCalls_map_sentId opts 0 calls, ?_⟩
  rw [runCalls_map_sentId opts 0 calls]
  refine List.Pairwise.map _ ?_ (List.pairwise_lt_range' (0 + 1) calls.length)
  intro a b hab i j hi hj
  simp only [Option.some.injEq, Json.num.injEq] at hi hj
  omega

theorem isJsonrpc20_false {x : Option Json} (h : x ≠ some (Json.str "2.0")) :
    isJsonrpc20 x = false := by
  rcases hx : isJsonrpc20 x
  · rfl
  · exact absurd ((isJsonrpc20_iff x).mp hx) h

/-- C4: a POST to the configured path whose body parses to an object whose
`jsonrpc` member differs from "2.0", or whose `method` member is missing
or the empty string, is answered — for every router, which is never
consulted — at HTTP status 200 with code `-32600` and message "Invalid
Request", `handle` returning `true`; the echoed id is the request's `id`
member when present and non-null, and `null` otherwise. -/
theorem handle_invalid_request (opts : HTTPAdapterOptions) (router : MCPRouter)
    (fs : List (String × Json))
    (h : (Json.obj fs).field "jsonrpc" ≠ some (Json.str "2.0") ∨
         (Json.obj fs).field "method" = none ∨
         (Json.obj fs).field "method" = some (Json.str "")) :
    handle opts router opts.path "POST" (Except.ok (Json.obj fs)) =
      (Except.ok true, sendError (setCORSHeaders opts emptyRes) (idOrNull (Json.obj fs))
        (-32600) "Invalid Request" none) ∧
    (sendError (setCORSHeaders opts emptyRes) (idOrNull (Json.obj fs))
        (-32600) "Invalid Request" none).statusCode = some 200 ∧
    (sendError (setCORSHeaders opts emptyRes) (idOrNull (Json.obj fs))
        (-32600) "Invalid Request" none).body =
      some (errorEnvelope (idOrNull (Json.obj fs)) (-32600) "Invalid Request" none) ∧
    (∀ v, (Json.obj fs).field "id" = some v → v ≠ Json.null →
      idOrNull (Json.obj fs) = v) ∧
    ((Json.obj fs).field "id" = none → idOrNull (Json.obj fs) = Json.null) := by
  refine ⟨?_, rfl, rfl, fun v hv hnv => idOrNull_present hv hnv,
    fun hv => idOrNull_absent hv⟩
  rcases h with h | h | h
  · simp [handle_post_obj_eq, isJsonrpc20_false h]
  · simp [handle_post_obj_eq, h, Json.truthy]
  · simp [handle_post_obj_eq, h, Json.truthy]

/-- Witness for C4 at the spec's concrete scenario: jsonrpc "1.0", id 2. -/
theorem handle_invalid_request_witness :
    handle demoOpts demoRouter demoOpts.path "POST" (Except.ok (Json.obj
      [("jsonrpc", Json.str "1.0"), ("id", Json.num 2), ("method", Json.str "x")])) =
      (Except.ok true, sendError (setCORSHeaders demoOpts emptyRes)
        (idOrNull (Json.obj [("jsonrpc", Json.str "1.0"), ("id", Json.num 2),
          ("method", Json.str "x")]))
        (-32600) "Invalid Request" none) ∧
    idOrNull (Json.obj [("jsonrpc", Json.str "1.0"), ("id", Json.num 2),
      ("method", Json.str "x")]) = Json.num 2 :=
  ⟨(handle_invalid_request demoOpts demoRouter
      [("jsonrpc", Json.str "1.0"), ("id", Json.num 2), ("method", Json.str "x")]
      (Or.inl (by simp [Json.field, Json.lookupField]))).1,
   (handle_invalid_request demoOpts demoRouter
      [("jsonrpc", Json.str "1.0"), ("id", Json.num 2), ("method", Json.str "x")]
      (Or.inl (by simp [Json.field, Json.lookupField]))).2.2.2.1
      (Json.num 2) rfl (by simp)⟩

/-- C5: on a valid request, an unknown method yields code `-32603` with
top-level message exactly "Internal error" and `data` the string "Method
not found: <method>"; more generally any `Error` thrown during dispatch
(a router operation failure included) yields `-32603` with top-level
message "Internal error" and `data` carrying the failure's own message,
which thus never reaches the top-level `message`. -/
theorem handle_internal_error (opts : HTTPAdapterOptions) :
    (∀ (router : MCPRouter) (fs : List (String × Json)) (m : String),
      (Json.obj fs).field "jsonrpc" = some (Json.str "2.0") →
      (Json.obj fs).field "method" = some (Json.str m) →
      m ≠ "" →
      m ∉ (["initialize", "tools/list", "tools/call", "resources/list",
        "resources/read", "resources/subscribe", "resources/unsubscribe",
        "prompts/list", "prompts/get"] : List String) →
      handle opts router opts.path "POST" (Except.ok (Json.obj fs)) =
        (Except.ok true, sendError (setCORSHeaders opts emptyRes)
          (idOrNull (Json.obj fs)) (-32603) "Internal error"
          (some (Json.str ("Method not found: " ++ m))))) ∧
    (∀ (router : MCPRouter) (fs : List (String × Json)) (m msg : String),
      (Json.obj fs).field "jsonrpc" = some (Json.str "2.0") →
      (Json.obj fs).field "method" = some (Json.str m) →
      m ≠ "" →
      handleMethod router (some (Json.str m)) ((Json.obj fs).field "params") =
        Except.error (JsExn.thrown msg) →
      handle opts router opts.path "POST" (Except.ok (Json.obj fs)) =
        (Except.ok true, sendError (setCORSHeaders opts emptyRes)
          (idOrNull (Json.obj fs)) (-32603) "Internal error"
          (some (Json.str msg)))) ∧
    (∀ (id : Json) (d : Option Json),
      (sendError (setCORSHeaders opts emptyRes) id (-32603) "Internal error" d).body =
        some (errorEnvelope id (-32603) "Internal error" d)) := by
  refine ⟨?_, ?_, fun id d => rfl⟩
  · intro router fs m hj hm hne hmem
    simp only [List.mem_cons, List.mem_singleton, not_or] at hmem
    obtain ⟨h1, h2, h3, h4, h5, h6, h7, h8, h9⟩ := hmem
    have hm9 : handleMethod router (some (Json.str m)) ((Json.obj fs).field "params") =
        Except.error (JsExn.thrown ("Method not found: " ++ m)) := by
      simp [handleMethod, h1, h2, h3, h4, h5, h6, h7, h8, h9]
    simp [handle_post_obj_eq, hj, hm, isJsonrpc20, Json.truthy, bne_iff_ne, hne, hm9,
      errMessage]
  · intro router fs m msg hj hm hne hdm
    simp [handle_post_obj_eq, hj, hm, isJsonrpc20, Json.truthy, bne_iff_ne, hne, hdm,
      errMessage]

/-- Witness for C5: the unknown method "no/such" against the demonstration
router, and a failing `tools/list` against the always-failing router. -/
theorem handle_internal_error_witness :
    handle demoOpts demoRouter demoOpts.path "POST" (Except.ok (Json.obj
      [("jsonrpc", Json.str "2.0"), ("id", Json.num 7),
        ("method", Json.str "no/such")])) =
      (Except.ok true, sendError (setCORSHeaders demoOpts emptyRes)
        (idOrNull (Json.obj [("jsonrpc", Json.str "2.0"), ("id", Json.num 7),
          ("method", Json.str "no/such")]))
        (-32603) "Internal error"
        (some (Json.str ("Method not found: " ++ "no/such")))) ∧
    handle demoOpts failRouter demoOpts.path "POST" (Except.ok (Json.obj
      [("jsonrpc", Json.str "2.0"), ("method", Json.str "tools/list")])) =
      (Except.ok true, sendError (setCORSHeaders demoOpts emptyRes)
        (idOrNull (Json.obj [("jsonrpc", Json.str "2.0"),
          ("method", Json.str "tools/list")]))
        (-32603) "Internal error" (some (Json.str "boom"))) :=
  ⟨(handle_internal_error demoOpts).1 demoRouter
      [("jsonrpc", Json.str "2.0"), ("id", Json.num 7), ("method", Json.str "no/such")]
      "no/such" rfl rfl (by decide) (by decide),
   (handle_internal_error demoOpts).2.1 failRouter
      [("jsonrpc", Json.str "2.0"), ("method", Json.str "tools/list")]
      "tools/list" "boom" rfl rfl (by decide) rfl⟩

/-- C2: for each of the nine known methods with valid parameters and a
succeeding router operation, the Receiver responds with a success envelope
carrying the request's id (the `id` member when present and non-null,
`null` otherwise) whose `result` is the operation's return value wrapped
per the dispatch table: raw for `initialize` and `tools/call`; wrapped as
`tools`/`resources`/`contents`/`prompts`/`messages` objects for the
list, read and prompt methods; the empty object for subscribe and
unsubscribe. -/
theorem handle_known_methods (opts : HTTPAdapterOptions) (router : MCPRouter)
    (fs : List (String × Json))
    (hj : (Json.obj fs).field "jsonrpc" = some (Json.str "2.0")) :
    (∀ v, (Json.obj fs).field "method" = some (Json.str "initialize") →
      router.initializeOp ((Json.obj fs).field "params") = Except.ok v →
      handle opts router opts.path "POST" (Except.ok (Json.obj fs)) =
        (Except.ok true, successResponse opts (idOrNull (Json.obj fs)) v)) ∧
    (∀ v, (Json.obj fs).field "method" = some (Json.str "tools/list") →
      router.listTools = Except.ok v →
      handle opts router opts.path "POST" (Except.ok (Json.obj fs)) =
        (Except.ok true, successResponse opts (idOrNull (Json.obj fs))
          (Json.obj [("tools", v)]))) ∧
    (∀ pfs v, (Json.obj fs).field "method" = some (Json.str "tools/call") →
      (Json.obj fs).field "params" = some (Json.obj pfs) →
      router.callTool ((Json.obj pfs).field "name")
          ((Json.obj pfs).field "arguments") = Except.ok v →
      handle opts router opts.path "POST" (Except.ok (Json.obj fs)) =
        (Except.ok true, successResponse opts (idOrNull (Json.obj fs)) v)) ∧
    (∀ v, (Json.obj fs).field "method" = some (Json.str "resources/list") →
      router.listResources = Except.ok v →
      handle opts router opts.path "POST" (Except.ok (Json.obj fs)) =
        (Except.ok true, successResponse opts (idOrNull (Json.obj fs))
          (Json.obj [("resources", v)]))) ∧
    (∀ pfs v, (Json.obj fs).field "method" = some (Json.str "resources/read") →
      (Json.obj fs).field "params" = some (Json.obj pfs) →
      router.readResource ((Json.obj pfs).field "uri") = Except.ok v →
      handle opts router opts.path "POST" (Except.ok (Json.obj fs)) =
        (Except.ok true, successResponse opts (idOrNull (Json.obj fs))
          (Json.obj [("contents", v)]))) ∧
    (∀ pfs w, (Json.obj fs).field "method" = some (Json.str "resources/subscribe") →
      (Json.obj fs).field "params" = some (Json.obj pfs) →
      router.subscribeToResource ((Json.obj pfs).field "uri") = Except.ok w →
      handle opts router opts.path "POST" (Except.ok (Json.obj fs)) =
        (Except.ok true, successResponse opts (idOrNull (Json.obj fs)) (Json.obj []))) ∧
    (∀ pfs w, (Json.obj fs).field "method" = some (Json.str "resources/unsubscribe") →
      (Json.obj fs).field "params" = some (Json.obj pfs) →
      router.unsubscribeFromResource ((Json.obj pfs).field "uri") = Except.ok w →
      handle opts router opts.path "POST" (Except.ok (Json.obj fs)) =
        (Except.ok true, successResponse opts (idOrNull (Json.obj fs)) (Json.obj []))) ∧
    (∀ v, (Json.obj fs).field "method" = some (Json.str "prompts/list") →
      router.listPrompts = Except.ok v →
      handle opts router opts.path "POST" (Except.ok (Json.obj fs)) =
        (Except.ok true, successResponse opts (idOrNull (Json.obj fs))
          (Json.obj [("prompts", v)]))) ∧
    (∀ pfs v, (Json.obj fs).field "method" = some (Json.str "prompts/get") →
      (Json.obj fs).field "params" = some (Json.obj pfs) →
      router.getPrompt ((Json.obj pfs).field "name")
          ((Json.obj pfs).field "arguments") = Except.ok v →
      handle opts router opts.path "POST" (Except.ok (Json.obj fs)) =
        (Except.ok true, successResponse opts (idOrNull (Json.obj fs))
          (Json.obj [("messages", v)]))) ∧
    (∀ v, (Json.obj fs).field "id" = some v → v ≠ Json.null →
      idOrNull (Json.obj fs) = v) ∧
    ((Json.obj fs).field "id" = none → idOrNull (Json.obj fs) = Json.null) ∧
    (∀ (id r : Json), (successResponse opts id r).statusCode = some 200 ∧
      (successResponse opts id r).body = some (Json.obj
        [("jsonrpc", Json.str "2.0"), ("id", id), ("result", r)])) := by
  refine ⟨?_, ?_, ?_, ?_, ?_, ?_, ?_, ?_, ?_,
    fun v hv hnv => idOrNull_present hv hnv, fun hv => idOrNull_absent hv,
    fun id r => ⟨rfl, rfl⟩⟩
  · intro v hm hr
    simp [handle_post_obj_eq, hj, hm, isJsonrpc20, Json.truthy, handleMethod, hr,
      liftRouter, successResponse, Except.mapError, Except.map, Except.bind, Bind.bind,
      Functor.map, Pure.pure, Except.pure]
  · intro v hm hr
    simp [handle_post_obj_eq, hj, hm, isJsonrpc20, Json.truthy, handleMethod, hr,
      liftRouter, successResponse, Except.mapError, Except.map, Except.bind, Bind.bind,
      Functor.map, Pure.pure, Except.pure]
  · intro pfs v hm hp hr
    simp [handle_post_obj_eq, hj, hm, hp, isJsonrpc20, Json.truthy, handleMethod, hr,
      liftRouter, fieldOf, successResponse, Except.mapError, Except.map, Except.bind,
      Bind.bind, Functor.map, Pure.pure, Except.pure]
  · intro v hm hr
    simp [handle_post_obj_eq, hj, hm, isJsonrpc20, Json.truthy, handleMethod, hr,
      liftRouter, successResponse, Except.mapError, Except.map, Except.bind, Bind.bind,
      Functor.map, Pure.pure, Except.pure]
  · intro pfs v hm hp hr
    simp [handle_post_obj_eq, hj, hm, hp, isJsonrpc20, Json.truthy, handleMethod, hr,
      liftRouter, fieldOf, successResponse, Except.mapError, Except.map, Except.bind,
      Bind.bind, Functor.map, Pure.pure, Except.pure]
  · intro pfs w hm hp hr
    simp [handle_post_obj_eq, hj, hm, hp, isJsonrpc20, Json.truthy, handleMethod, hr,
      liftRouter, fieldOf, successResponse, Except.mapError, Except.map, Except.bind,
      Bind.bind, Functor.map, Pure.pure, Except.pure]
  · intro pfs w hm hp hr
    simp [handle_post_obj_eq, hj, hm, hp, isJsonrpc20, Json.truthy, handleMethod, hr,
      liftRouter, fieldOf, successResponse, Except.mapError, Except.map, Except.bind,
      Bind.bind, Functor.map, Pure.pure, Except.pure]
  · intro v hm hr
    simp [handle_post_obj_eq, hj, hm, isJsonrpc20, Json.truthy, handleMethod, hr,
      liftRouter, successResponse, Except.mapError, Except.map, Except.bind, Bind.bind,
      Functor.map, Pure.pure, Except.pure]
  · intro pfs v hm hp hr
    simp [handle_post_obj_eq, hj, hm, hp, isJsonrpc20, Json.truthy, handleMethod, hr,
      liftRouter, fieldOf, successResponse, Except.mapError, Except.map, Except.bind,
      Bind.bind, Functor.map, Pure.pure, Except.pure]

/-- Witness for C2: `tools/list` with id 1 against the demonstration
router. -/
theorem handle_known_methods_witness :
    handle demoOpts demoRouter demoOpts.path "POST" (Except.ok demoToolsListReq) =
      (Except.ok true, successResponse demoOpts (idOrNull demoToolsListReq)
        (Json.obj [("tools", Json.arr [Json.obj [("name", Json.str "calculator")]])])) :=
  (handle_known_methods demoOpts demoRouter
    [("jsonrpc", Json.str "2.0"), ("id", Json.num 1),
      ("method", Json.str "tools/list"), ("params", Json.obj [])] rfl).2.1
    (Json.arr [Json.obj [("name", Json.str "calculator")]]) rfl rfl

theorem forwardHandler_err_outcomes (opts : HTTPMCPClientOptions)
    (hOn : opts.hasOnError = true) (m : String) (counter : Nat) (params : Option Json) :
    (∀ (status : Nat) (bodyFs : List (String × Json)) (c : Int) (emsg : String),
      fetchOk status = true →
      (Json.obj bodyFs).field "error" =
        some (Json.obj [("code", Json.num c), ("message", Json.str emsg)]) →
      (forwardHandler opts m m counter params
          ⟨status, Except.ok (Json.obj bodyFs)⟩).outcome =
        Except.error (JsExn.thrown ("JSON-RPC error " ++ toString c ++ ": " ++ emsg)) ∧
      (forwardHandler opts m m counter params
          ⟨status, Except.ok (Json.obj bodyFs)⟩).errorCalls =
        [(m, "JSON-RPC error " ++ toString c ++ ": " ++ emsg)]) ∧
    (∀ (status : Nat) (jb : Except Unit Json),
      fetchOk status = false →
      (forwardHandler opts m m counter params ⟨status, jb⟩).outcome =
        Except.error (JsExn.thrown ("HTTP error! status: " ++ toString status)) ∧
      (forwardHandler opts m m counter params ⟨status, jb⟩).errorCalls =
        [(m, "HTTP error! status: " ++ toString status)]) := by
  constructor
  · intro status bodyFs c emsg hok herr
    rw [forwardHandler_rpc_error opts m m counter params status bodyFs c emsg hok herr]
    simp [hOn]
  · intro status jb hbad
    rw [forwardHandler_http_error opts m m counter params status jb hbad]
    simp [hOn]

/-- C7: every one of the nine registered forwarder handlers, when the
remote body is a JSON-RPC response carrying an `error` object with code c
and message m, fails with an `Error` embedding c and m and invokes the
configured error callback exactly once, with the originating method name
as its first argument; the same single-callback-then-propagate behaviour
holds when the HTTP response has a non-success status. -/
theorem forwarder_error_behaviour (opts : HTTPMCPClientOptions)
    (hOn : opts.hasOnError = true) :
    ∀ pair ∈ setupHandlers opts, ∀ (counter : Nat) (params : Option Json),
    (∀ (status : Nat) (bodyFs : List (String × Json)) (c : Int) (emsg : String),
      fetchOk status = true →
      (Json.obj bodyFs).field "error" =
        some (Json.obj [("code", Json.num c), ("message", Json.str emsg)]) →
      (pair.2 counter params ⟨status, Except.ok (Json.obj bodyFs)⟩).outcome =
        Except.error (JsExn.thrown ("JSON-RPC error " ++ toString c ++ ": " ++ emsg)) ∧
      (pair.2 counter params ⟨status, Except.ok (Json.obj bodyFs)⟩).errorCalls =
        [(pair.1, "JSON-RPC error " ++ toString c ++ ": " ++ emsg)]) ∧
    (∀ (status : Nat) (jb : Except Unit Json),
      fetchOk status = false →
      (pair.2 counter params ⟨status, jb⟩).outcome =
        Except.error (JsExn.thrown ("HTTP error! status: " ++ toString status)) ∧
      (pair.2 counter params ⟨status, jb⟩).errorCalls =
        [(pair.1, "HTTP error! status: " ++ toString status)]) := by
  intro pair hp counter params
  simp only [setupHandlers, List.mem_cons, List.not_mem_nil, or_false] at hp
  rcases hp with rfl | rfl | rfl | rfl | rfl | rfl | rfl | rfl | rfl <;>
    exact forwardHandler_err_outcomes opts hOn _ counter params

/-- Witness for C7 on the `initialize` handler: a remote error object
(code -32601, message "nope") at status 200, and a bare status-500
response. -/
theorem forwarder_error_behaviour_witness :
    ((forwardHandler demoFwdOpts "initialize" "initialize" 0 none remoteErr).outcome =
      Except.error (JsExn.thrown
        ("JSON-RPC error " ++ toString (-32601 : Int) ++ ": " ++ "nope")) ∧
     (forwardHandler demoFwdOpts "initialize" "initialize" 0 none remoteErr).errorCalls =
      [("initialize", "JSON-RPC error " ++ toString (-32601 : Int) ++ ": " ++ "nope")]) ∧
    ((forwardHandler demoFwdOpts "initialize" "initialize" 0 none
        ⟨500, Except.ok Json.null⟩).outcome =
      Except.error (JsExn.thrown ("HTTP error! status: " ++ toString (500 : Nat))) ∧
     (forwardHandler demoFwdOpts "initialize" "initialize" 0 none
        ⟨500, Except.ok Json.null⟩).errorCalls =
      [("initialize", "HTTP error! status: " ++ toString (500 : Nat))]) := by
  have h := forwarder_error_behaviour demoFwdOpts rfl
    ("initialize", forwardHandler demoFwdOpts "initialize" "initialize")
    (List.mem_cons_self _ _) 0 none
  exact ⟨h.1 200 [("jsonrpc", Json.str "2.0"), ("id", Json.num 1),
      ("error", Json.obj [("code", Json.num (-32601)), ("message", Json.str "nope")])]
      (-32601) "nope" rfl rfl,
    h.2 500 (Except.ok Json.null) rfl⟩

theorem forwardHandler_ok_outcome (opts : HTTPMCPClientOptions) (m : String)
    (counter : Nat) (params : Option Json) (status : Nat)
    (bodyFs : List (String × Json)) (X : Json)
    (hok : fetchOk status = true)
    (herr : (Json.obj bodyFs).field "error" = none)
    (hres : (Json.obj bodyFs).field "result" = some X) :
    (forwardHandler opts m m counter params
        ⟨status, Except.ok (Json.obj bodyFs)⟩).outcome = Except.ok (some X) ∧
    (forwardHandler opts m m counter params
        ⟨status, Except.ok (Json.obj bodyFs)⟩).errorCalls = [] := by
  rw [forwardHandler_success opts m m counter params status bodyFs X hok herr hres]
  exact ⟨rfl, rfl⟩

/-- C8: every one of the nine registered forwarder handlers, when the HTTP
status is a success and the body is a JSON-RPC response without an `error`
member and with `result: X`, returns `X` unchanged to the stream-framed
binding, and the error callback is not invoked. -/
theorem forwarder_success_behaviour (opts : HTTPMCPClientOptions) :
    ∀ pair ∈ setupHandlers opts, ∀ (counter : Nat) (params : Option Json)
      (status : Nat) (bodyFs : List (String × Json)) (X : Json),
    fetchOk status = true →
    (Json.obj bodyFs).field "error" = none →
    (Json.obj bodyFs).field "result" = some X →
    (pair.2 counter params ⟨status, Except.ok (Json.obj bodyFs)⟩).outcome =
      Except.ok (some X) ∧
    (pair.2 counter params ⟨status, Except.ok (Json.obj bodyFs)⟩).errorCalls = [] := by
  intro pair hp counter params status bodyFs X hok herr hres
  simp only [setupHandlers, List.mem_cons, List.not_mem_nil, or_false] at hp
  rcases hp with rfl | rfl | rfl | rfl | rfl | rfl | rfl | rfl | rfl <;>
    exact forwardHandler_ok_outcome opts _ counter params status bodyFs X hok herr hres

/-- Witness for C8 on the `tools/call` handler with the remote result
`"X"`. -/
theorem forwarder_success_behaviour_witness :
    (forwardHandler demoFwdOpts "tools/call" "tools/call" 0 none remoteOkX).outcome =
      Except.ok (some (Json.str "X")) ∧
    (forwardHandler demoFwdOpts "tools/call" "tools/call" 0 none remoteOkX).errorCalls =
      [] := by
  have h := forwarder_success_behaviour demoFwdOpts
    ("tools/call", forwardHandler demoFwdOpts "tools/call" "tools/call")
    (List.mem_cons_of_mem _ (List.mem_cons_of_mem _ (List.mem_cons_self _ _)))
    0 none 200
    [("jsonrpc", Json.str "2.0"), ("id", Json.num 1), ("result", Json.str "X")]
    (Json.str "X") rfl rfl rfl
  exact h
